import Mathlib

/-!
Verification development for the `kernel_gate` reconciliation DAG
(`airflow/dags/kernel_gate.py`): the mapping of raw bibliographic records
to registry payloads, the issue-identifier derivation, the
create-or-update reconciliation protocol and the journal/issue membership
linker, embedded shallowly in Lean.
-/

namespace KernelGate

/-- A JSON-like Python value as handled by the DAG: `None`, strings,
integers, lists and dicts (modelled as association lists in insertion
order, as Python 3.7+ dicts preserve insertion order). -/
inductive JValue where
  | null : JValue
  | str (s : String) : JValue
  | num (n : Int) : JValue
  | arr (xs : List JValue) : JValue
  | obj (fields : List (String × JValue)) : JValue

/-- A Python dict with string keys, as used for every payload in the DAG. -/
abbrev JObj := List (String × JValue)

/-- Python truthiness (`bool(v)`): `None`, `""`, `0`, `[]` and `{}` are
falsy, everything else is truthy. -/
def pyTruthy : JValue → Bool
  | .null => false
  | .str s => !s.isEmpty
  | .num n => n != 0
  | .arr xs => !xs.isEmpty
  | .obj fs => !fs.isEmpty

mutual

/-- Python equality (`==`) on the values above: lists compare pointwise in
order, dicts compare as unordered key/value maps. -/
def pyEq : JValue → JValue → Bool
  | .null, .null => true
  | .str a, .str b => a == b
  | .num a, .num b => a == b
  | .arr xs, .arr ys => pyEqList xs ys
  | .obj fs, .obj gs => fs.length == gs.length && pyEqFields fs gs
  | _, _ => false

def pyEqList : List JValue → List JValue → Bool
  | [], [] => true
  | x :: xs, y :: ys => pyEq x y && pyEqList xs ys
  | _, _ => false

def pyEqFields : List (String × JValue) → List (String × JValue) → Bool
  | [], _ => true
  | (k, v) :: fs, gs =>
    (match gs.lookup k with
     | some w => pyEq v w
     | none => false) && pyEqFields fs gs

end

/-- Python `d.get(k)` on a dict: the stored value, or `None` when the key
is absent. -/
def mget (m : JObj) (k : String) : JValue :=
  (m.lookup k).getD .null

mutual

/-- Total comparison on `JValue`, used only to pick a canonical order when
normalising unordered structures for the `DeepDiff` model. -/
def jcmp : JValue → JValue → Ordering
  | .null, .null => .eq
  | .null, _ => .lt
  | _, .null => .gt
  | .str a, .str b => compare a b
  | .str _, _ => .lt
  | _, .str _ => .gt
  | .num a, .num b => compare a b
  | .num _, _ => .lt
  | _, .num _ => .gt
  | .arr a, .arr b => jcmpList a b
  | .arr _, _ => .lt
  | _, .arr _ => .gt
  | .obj a, .obj b => jcmpFields a b

def jcmpList : List JValue → List JValue → Ordering
  | [], [] => .eq
  | [], _ :: _ => .lt
  | _ :: _, [] => .gt
  | x :: xs, y :: ys =>
    match jcmp x y with
    | .eq => jcmpList xs ys
    | o => o

def jcmpFields : List (String × JValue) → List (String × JValue) → Ordering
  | [], [] => .eq
  | [], _ :: _ => .lt
  | _ :: _, [] => .gt
  | (j, v) :: fs, (k, w) :: gs =>
    match compare j k with
    | .eq =>
      match jcmp v w with
      | .eq => jcmpFields fs gs
      | o => o
    | o => o

end

/-- Insertion into a list sorted by `le`, used to canonicalise unordered
structures. -/
def insertSorted (le : α → α → Bool) (x : α) : List α → List α
  | [] => [x]
  | y :: ys => if le x y then x :: y :: ys else y :: insertSorted le x ys

/-- Insertion sort by `le`. -/
def sortBy (le : α → α → Bool) : List α → List α
  | [] => []
  | x :: xs => insertSorted le x (sortBy le xs)

mutual

/-- Canonical form of a value with every unordered structure (list
contents under `ignore_order`, dict fields) sorted, so two values are
related by reordering inside unordered structures exactly when their
canonical forms coincide.  This models the comparison performed by
`DeepDiff(a, b, ignore_order=True)` from the `deepdiff` library used by
`register_or_update`. -/
def normalize : JValue → JValue
  | .null => .null
  | .str s => .str s
  | .num n => .num n
  | .arr xs => .arr (sortBy (fun a b => jcmp a b ≠ .gt) (normalizeList xs))
  | .obj fs => .obj (sortBy (fun a b => jcmpFields [a] [b] ≠ .gt) (normalizeFields fs))

def normalizeList : List JValue → List JValue
  | [] => []
  | x :: xs => normalize x :: normalizeList xs

def normalizeFields : List (String × JValue) → List (String × JValue)
  | [] => []
  | (k, v) :: fs => (k, normalize v) :: normalizeFields fs

end

mutual

/-- Plain structural (order-sensitive) equality of values. -/
def jbeq : JValue → JValue → Bool
  | .null, .null => true
  | .str a, .str b => a == b
  | .num a, .num b => a == b
  | .arr xs, .arr ys => jbeqList xs ys
  | .obj fs, .obj gs => jbeqFields fs gs
  | _, _ => false

def jbeqList : List JValue → List JValue → Bool
  | [], [] => true
  | x :: xs, y :: ys => jbeq x y && jbeqList xs ys
  | _, _ => false

def jbeqFields : List (String × JValue) → List (String × JValue) → Bool
  | [], [] => true
  | (j, v) :: fs, (k, w) :: gs => j == k && jbeq v w && jbeqFields fs gs
  | _, _ => false

end

/-- Predicate for `DeepDiff(a, b, ignore_order=True)` being non-empty: the two structures
differ after discounting ordering inside unordered structures. -/
def deepDiffNonempty (a b : JValue) : Bool :=
  !(jbeq (normalize a) (normalize b))

/-- Predicate for `DeepDiff(a, b)` (order-sensitive, as called by
`update_journals_and_issues_link`) being non-empty: plain structural
inequality. -/
def deepDiffOrderedNonempty (a b : JValue) : Bool :=
  !(jbeq a b)

/-! ## The reconciler: `register_or_update`

The HTTP layer is modelled by the result of the initial
`GET entity_url/id`: the DAG runs it with `extra_options={"check_response":
False}`, so any status code is returned to the function body rather than
raised as an exception.  The function's observable behaviour is the list
of write requests (PUT/PATCH) it issues; it is wrapped in `Except Unit` so
that an uncaught exception escaping the function body could be
represented — the body contains no `raise` and disables status checking,
so every branch returns normally. -/

/-- Result of the initial `GET` in `register_or_update`: 404, or 200
carrying the entity's `metadata` object, or any other status code. -/
inductive GetResult where
  | notFound : GetResult
  | ok (metadata : JObj) : GetResult
  | other (code : Nat) : GetResult

/-- A write request issued against the registry. -/
inductive WriteOp where
  | put (body : JObj) : WriteOp
  | patch (body : JObj) : WriteOp

/-- The 404 branch's pruning of falsy-valued keys:
`{k: v for k, v in payload.items() if v}`. -/
def pruneFalsy (payload : JObj) : JObj :=
  payload.filter (fun kv => pyTruthy kv.2)

/-- The comparison payload built on the 200 branch:
`{k: v for k, v in payload.items() if _metadata.get(k) or
_metadata.get(k) == v or v}`. -/
def comparisonPayload (metadata payload : JObj) : JObj :=
  payload.filter (fun kv =>
    pyTruthy (mget metadata kv.1) || pyEq (mget metadata kv.1) kv.2 || pyTruthy kv.2)

/-- Embedding of `register_or_update(_id, payload, entity_url)` from
`airflow/dags/kernel_gate.py`, as a function of the initial GET's result;
returns the write requests issued. -/
def register_or_update (response : GetResult) (payload : JObj) :
    Except Unit (List WriteOp) :=
  match response with
  | .notFound => .ok [.put (pruneFalsy payload)]
  | .ok metadata =>
    let payload := comparisonPayload metadata payload
    if deepDiffNonempty (.obj metadata) (.obj payload) then
      .ok [.patch payload]
    else
      .ok []
  | .other _ => .ok []

/-- Modelled from the spec: the registry's `PATCH` is a partial update —
keys present in the body overwrite the stored value, keys absent from the
body are left unchanged, and no key is deleted. -/
def mergePatch (stored body : JObj) : JObj :=
  stored.map (fun kv =>
    match body.lookup kv.1 with
    | some w => (kv.1, w)
    | none => kv) ++
  body.filter (fun kv => (stored.lookup kv.1).isNone)

/-- Effect of one write request on the stored entity. -/
def applyWrite (stored : JObj) : WriteOp → JObj
  | .put body => body
  | .patch body => mergePatch stored body

/-- Effect of a sequence of write requests on the stored entity. -/
def applyWrites (stored : JObj) (ws : List WriteOp) : JObj :=
  ws.foldl applyWrite stored

/-! ## The identifier deriver: `issue_id` -/

/-- Truthiness of an optional Python string: `None` and `""` are falsy. -/
def optStrTruthy : Option String → Bool
  | none => false
  | some s => !s.isEmpty

/-- Python `value.isdigit()` on the ASCII strings handled here: non-empty
and all decimal digits. -/
def pyIsDigit (s : String) : Bool :=
  !s.data.isEmpty && s.data.all Char.isDigit

/-- Value of a string of decimal digits (what Python's `int` computes on
an `isdigit()` string). -/
def digitsToNat (cs : List Char) : Nat :=
  cs.foldl (fun n c => 10 * n + (c.toNat - '0'.toNat)) 0

/-- Canonicalisation `str(int(value)) if value.isdigit() else value`
applied to each volume/number/supplement value inside `issue_id`: a purely
numeric value is re-rendered as a decimal integer, which strips leading
zeros. -/
def canonIfDigits (s : String) : String :=
  if pyIsDigit s then toString (digitsToNat s.data) else s

/-- The `issn_id`/`year` part of the id list: each value appended when
truthy (`if value: _id.append(value)`). -/
def issue_id_head (issn_id year : Option String) : List String :=
  [issn_id, year].filterMap (fun v =>
    match v with
    | some s => if s.isEmpty then none else some s
    | none => none)

/-- The prefixed `v`/`n`/`s` tokens of the id list: for each truthy value,
in the fixed order volume, number, supplement, the prefix concatenated
with the digit-canonicalised value. -/
def issue_id_tokens (volume number supplement : Option String) : List String :=
  [(volume, "v"), (number, "n"), (supplement, "s")].filterMap (fun vp =>
    match vp.1 with
    | some s => if s.isEmpty then none else some (vp.2 ++ canonIfDigits s)
    | none => none)

/-- Embedding of `issue_id(issn_id, year, volume, number, supplement)` from
`airflow/dags/kernel_gate.py`: the `-`-join of the retained tokens. -/
def issue_id (issn_id year volume number supplement : Option String) : String :=
  String.intercalate "-" (issue_id_head issn_id year ++
    issue_id_tokens volume number supplement)

/-! ## The entity mapper for issues: `issue_as_kernel` -/

/-- The face of a xylose `Issue` object as consumed by the DAG: each field
holds the value of the corresponding xylose accessor (Python `None`
modelled as `none`), plus the raw `v35` (parent ISSN) and `v36` (sequence
position) occurrence values read directly from `issue.data["issue"]`
(`field[0]["_"]` is the head of the list; an absent field is the empty
list, making the subscript raise as in Python). -/
structure IssueRecord where
  type : String
  volume : Option String
  number : Option String
  supplement_volume : Option String
  supplement_number : Option String
  titles : List (String × String)
  start_month : Option String
  end_month : Option String
  publication_date : String
  v35 : List String
  v36 : List String

/-- Python `x or ""` for an optional string: `None` and `""` both render `""`. -/
def orEmpty : Option String → String
  | none => ""
  | some s => s

/-- Python `a or d` for an optional string `a`: `d` when `a` is falsy. -/
def pyOrStr (a : Option String) (d : String) : String :=
  match a with
  | some s => if s.isEmpty then d else s
  | none => d

/-- Python `int(s)` on the decimal strings handled here (an optional sign
followed by digits), `none` when it raises `ValueError`. -/
def pyInt? (s : String) : Option Int :=
  match s.data with
  | '-' :: cs =>
    if !cs.isEmpty && cs.all Char.isDigit then some (-(digitsToNat cs : Int))
    else none
  | cs =>
    if !cs.isEmpty && cs.all Char.isDigit then some (digitsToNat cs : Int)
    else none

/-- The `%Y` field of `datetime.strptime`: one to four decimal digits,
parsed as the year. -/
def strpYear? (cs : List Char) : Option Nat :=
  if !cs.isEmpty && cs.all Char.isDigit && cs.length ≤ 4 then
    some (digitsToNat cs)
  else
    none

/-- The `%m` field of `datetime.strptime`: one or two digits in 1..12. -/
def strpMonthOk (cs : List Char) : Bool :=
  !cs.isEmpty && cs.all Char.isDigit && cs.length ≤ 2 &&
    1 ≤ digitsToNat cs && digitsToNat cs ≤ 12

/-- The `%d` field of `datetime.strptime`: one or two digits in 1..31
(validity of the day against the month's length is not modelled; no claim
depends on it). -/
def strpDayOk (cs : List Char) : Bool :=
  !cs.isEmpty && cs.all Char.isDigit && cs.length ≤ 2 &&
    1 ≤ digitsToNat cs && digitsToNat cs ≤ 31

/-- Split a character list at each `-`, the shape dispatch performed by
the three `strptime` format strings. -/
def splitDash : List Char → List (List Char)
  | [] => [[]]
  | c :: rest =>
    match splitDash rest with
    | [] => [[]]
    | g :: gs => if c = '-' then [] :: g :: gs else (c :: g) :: gs

/-- Embedding of `parse_date` inside `issue_as_kernel`: try `datetime.strptime` with
formats `%Y-%m-%d`, `%Y-%m`, `%Y` in this order, letting the final
`ValueError` escape; only `_creation_date.year` is consumed downstream, so
the model returns the parsed year. -/
def parse_date_year (date : String) : Option Nat :=
  match splitDash date.data with
  | [y, m, d] => if strpMonthOk m && strpDayOk d then strpYear? y else none
  | [y, m] => if strpMonthOk m then strpYear? y else none
  | [y] => strpYear? y
  | _ => none

/-- The value stored under `"supplement"` by `issue_as_kernel` when the
record's type is `"supplement"`:
`issue.supplement_volume or issue.supplement_number or "0"`. -/
def supplement_value (issue : IssueRecord) : String :=
  pyOrStr issue.supplement_volume (pyOrStr issue.supplement_number "0")

/-- The `_id` computed at the end of `issue_as_kernel` (the value that
`issue_as_kernel(issue).pop("_id")` extracts): `issue_id` applied to the
head of `v35`, the parsed publication year rendered back to a string, the
volume, the number and `_payload.get("supplement")`. -/
def issue_kernel_id (issue : IssueRecord) : Option String := do
  let issn_id ← issue.v35.head?
  let year ← parse_date_year issue.publication_date
  pure (issue_id (some issn_id) (some (toString year)) issue.volume issue.number
    (if issue.type == "supplement" then some (supplement_value issue) else none))

/-- The `"supplement"` entry added by `issue_as_kernel` exactly when the
record's type is `"supplement"`.  The source compares `issue.type` with
the literal `"supplement"` using `is`; for the CPython-interned literal
strings produced by the xylose `type` accessor this coincides with string
equality, which is how it is modelled. -/
def supplement_entry (issue : IssueRecord) : JObj :=
  if issue.type == "supplement" then
    [("supplement", .str (supplement_value issue))]
  else
    []

/-- The `"titles"` value of `issue_as_kernel`: one `{language, value}`
object per title, the empty array when there are none. -/
def titles_value (issue : IssueRecord) : JValue :=
  if !issue.titles.isEmpty then
    .arr (issue.titles.map (fun lv =>
      .obj [("language", .str lv.1), ("value", .str lv.2)]))
  else
    .arr []

/-- The `"publication_season"` value of `issue_as_kernel`:
`sorted(set([int(start), int(end)]))` when both months are truthy, `[]`
otherwise, `none` when `int` raises. -/
def publication_season (issue : IssueRecord) : Option (List Int) :=
  if optStrTruthy issue.start_month && optStrTruthy issue.end_month then do
    let a ← pyInt? (orEmpty issue.start_month)
    let b ← pyInt? (orEmpty issue.end_month)
    pure (if a = b then [a] else if a < b then [a, b] else [b, a])
  else
    pure []

/-- Embedding of `issue_as_kernel(issue)` from `airflow/dags/kernel_gate.py`, `none`
when the Python original raises (unparseable `publication_date`,
non-numeric months, absent `v35`). -/
def issue_as_kernel (issue : IssueRecord) : Option JObj := do
  let season ← publication_season issue
  let _id ← issue_kernel_id issue
  pure ([("volume", .str (orEmpty issue.volume)),
         ("number", .str (orEmpty issue.number))] ++
        supplement_entry issue ++
        [("titles", titles_value issue),
         ("publication_season", .arr (season.map .num)),
         ("_id", .str _id)])

/-! ## The record filter and the membership linker -/

/-- Embedding of `filter_issues(issues)`: drop press releases, then aheads, preserving
order. -/
def filter_issues (issues : List IssueRecord) : List IssueRecord :=
  (issues.filter (fun issue => !(issue.type == "pressrelease"))).filter
    (fun issue => !(issue.type == "ahead"))

/-- Python `list.insert(pos, x)`: a negative position counts from the end
(clamped at 0), a position at or beyond the length appends. -/
def pyInsert (l : List α) (pos : Int) (x : α) : List α :=
  let i := if pos < 0 then ((l.length : Int) + pos).toNat else pos.toNat
  l.take i ++ x :: l.drop i

/-- The body of the `for issue in issues` loop of
`mount_journals_issues_link`: compute the issue's derived id, its declared
position (`int(v36[0]["_"])`) and its parent journal id (`v35[0]["_"]`),
`setdefault` the journal's list, and insert the id at the position unless
already present.  The accumulator is the `journal_issues` dict in
insertion order. -/
def mount_step (journal_issues : List (String × List String))
    (issue : IssueRecord) : Option (List (String × List String)) := do
  let _kernel ← issue_as_kernel issue
  let iid ← issue_kernel_id issue
  let posStr ← issue.v36.head?
  let pos ← pyInt? posStr
  let jid ← issue.v35.head?
  let m := if (journal_issues.lookup jid).isSome then journal_issues
           else journal_issues ++ [(jid, [])]
  let cur := (m.lookup jid).getD []
  if iid ∈ cur then
    pure m
  else
    pure (m.map (fun kv => if kv.1 == jid then (kv.1, pyInsert cur pos iid) else kv))

/-- Embedding of `mount_journals_issues_link(issues)` from `airflow/dags/kernel_gate.py`:
filter the issues, then fold the loop body over them starting from the
empty dict; `none` when some record makes the Python original raise. -/
def mount_journals_issues_link (issues : List IssueRecord) :
    Option (List (String × List String)) :=
  (filter_issues issues).foldlM mount_step []

/-- Embedding of `update_journals_and_issues_link(journal_issues)` from
`airflow/dags/kernel_gate.py`.  `get jid` models
`GET /journals/{jid}` with response checking enabled: `.error ()` when the
hook raises `AirflowException` (404 or any failing status), `.ok items`
for a 200 with membership list `items`.  The whole loop body sits in a
`try` whose `except AirflowException` logs and continues, so a failed
lookup skips the journal.  Returns the `PUT {journal_id}/issues` requests
issued, in order.  `update_step` is the body of the `for journal_id,
issues` loop, accumulating the issued PUTs. -/
def update_step (get : String → Except Unit (List String))
    (puts : List (String × List String)) (ji : String × List String) :
    List (String × List String) :=
  match get ji.1 with
  | .error _ => puts
  | .ok items =>
    if deepDiffOrderedNonempty (.arr (items.map .str)) (.arr (ji.2.map .str)) then
      puts ++ [ji]
    else
      puts

def update_journals_and_issues_link (get : String → Except Unit (List String))
    (journal_issues : List (String × List String)) :
    List (String × List String) :=
  journal_issues.foldl (update_step get) []

/-! ## Concrete records used as test vectors -/

/-- A raw supplement-type issue record (fields in declaration order: type,
volume, number, supplement_volume, supplement_number, titles, start_month,
end_month, publication_date, v35, v36) with both supplement labels
absent. -/
def suppIssue : IssueRecord :=
  ⟨"supplement", none, none, none, none, [], none, none, "1998",
    ["0001-3714"], ["0"]⟩

/-- A minimal regular issue record of journal `0001-3714` with the given
publication year and declared sequence position. -/
def regularIssue (year pos : String) : IssueRecord :=
  ⟨"regular", none, none, none, none, [], none, none, year,
    ["0001-3714"], [pos]⟩

/-- A minimal regular issue record of a second journal `9999-9999`. -/
def otherJournalIssue : IssueRecord :=
  ⟨"regular", none, none, none, none, [], none, none, "1996",
    ["9999-9999"], ["0"]⟩

/-! ## Helper lemmas -/

mutual

theorem jbeq_refl : ∀ v : JValue, jbeq v v = true
  | .null => rfl
  | .str s => by simp [jbeq]
  | .num n => by simp [jbeq]
  | .arr xs => by simp [jbeq, jbeqList_refl xs]
  | .obj fs => by simp [jbeq, jbeqFields_refl fs]

theorem jbeqList_refl : ∀ xs : List JValue, jbeqList xs xs = true
  | [] => rfl
  | x :: xs => by simp [jbeqList, jbeq_refl x, jbeqList_refl xs]

theorem jbeqFields_refl : ∀ fs : List (String × JValue), jbeqFields fs fs = true
  | [] => rfl
  | (k, v) :: fs => by simp [jbeqFields, jbeq_refl v, jbeqFields_refl fs]

end

theorem deepDiffNonempty_self (a : JValue) : deepDiffNonempty a a = false := by
  simp [deepDiffNonempty, jbeq_refl]

theorem pyEq_null_iff (v : JValue) : pyEq .null v = true ↔ v = .null := by
  cases v <;> simp [pyEq]

theorem pyTruthy_mget_isSome (m : JObj) (k : String)
    (h : pyTruthy (mget m k) = true) : (m.lookup k).isSome = true := by
  cases hl : m.lookup k with
  | none => rw [mget, hl] at h; simp [Option.getD, pyTruthy] at h
  | some v => rfl

theorem lookup_append_left_isSome (xs ys : List (String × JValue)) (k : String)
    (h : (xs.lookup k).isSome = true) :
    ((xs ++ ys).lookup k).isSome = true := by
  induction xs with
  | nil => simp [List.lookup] at h
  | cons kv rest ih =>
    obtain ⟨k1, v1⟩ := kv
    simp only [List.cons_append, List.lookup] at h ⊢
    cases hk : (k == k1) with
    | false => simp only [hk] at h ⊢; exact ih h
    | true => simp [hk]

theorem lookup_map_key_preserving (m : JObj)
    (f : String × JValue → String × JValue) (hf : ∀ kv, (f kv).1 = kv.1)
    (k : String) : ((m.map f).lookup k).isSome = (m.lookup k).isSome := by
  induction m with
  | nil => rfl
  | cons kv rest ih =>
    have h1 := hf kv
    cases hfk : f kv with
    | mk fk fv =>
      rw [hfk] at h1
      by_cases hk : k == kv.1
      · simp [List.lookup, hfk, h1, hk]
      · simp [List.lookup, hfk, h1, hk, ih]

theorem mergePatch_lookup_isSome (stored body : JObj) (k : String)
    (h : (stored.lookup k).isSome = true) :
    ((mergePatch stored body).lookup k).isSome = true := by
  apply lookup_append_left_isSome
  rw [lookup_map_key_preserving]
  · exact h
  · intro kv; cases hb : body.lookup kv.1 <;> simp

theorem lookup_eq_none_of_not_mem_keys (l : List (String × JValue)) (k : String)
    (h : k ∉ l.map Prod.fst) : l.lookup k = none := by
  induction l with
  | nil => rfl
  | cons kv rest ih =>
    simp only [List.map_cons, List.mem_cons] at h
    push_neg at h
    simp only [List.lookup]
    cases hk : (k == kv.1) with
    | false => exact ih h.2
    | true => exact absurd (by simpa using hk) h.1

theorem lookup_of_mem_nodup (p : JObj) (hnodup : (p.map Prod.fst).Nodup)
    (k : String) (v : JValue) (hm : (k, v) ∈ p) : p.lookup k = some v := by
  induction p with
  | nil => simp at hm
  | cons kv rest ih =>
    simp only [List.map_cons, List.nodup_cons] at hnodup
    simp only [List.lookup]
    rcases List.mem_cons.mp hm with h | h
    · subst h
      simp
    · cases hk : (k == kv.1) with
      | false => exact ih hnodup.2 h
      | true =>
        exfalso
        have : k = kv.1 := by simpa using hk
        exact hnodup.1 (this ▸ List.mem_map.mpr ⟨(k, v), h, rfl⟩)

theorem lookup_pruneFalsy (p : JObj) (hnodup : (p.map Prod.fst).Nodup)
    (k : String) :
    (pruneFalsy p).lookup k =
      (p.lookup k).bind (fun v => if pyTruthy v then some v else none) := by
  induction p with
  | nil => rfl
  | cons kv rest ih =>
    obtain ⟨k1, v1⟩ := kv
    simp only [List.map_cons, List.nodup_cons] at hnodup
    obtain ⟨hk1, hrest⟩ := hnodup
    simp only [pruneFalsy, List.filter_cons] at *
    cases ht : pyTruthy (k1, v1).2 with
    | true =>
      simp only [ht, if_true, List.lookup]
      cases hk : (k == k1) with
      | true => simp at ht; simp [ht]
      | false => exact ih hrest
    | false =>
      simp only [ht, if_false, List.lookup]
      cases hk : (k == k1) with
      | true =>
        have hkk : k = k1 := by simpa using hk
        have hnone : rest.lookup k = none :=
          lookup_eq_none_of_not_mem_keys rest k (hkk ▸ hk1)
        simp only at ht
        simp [ih hrest, hnone, ht]
      | false => exact ih hrest

theorem comparisonPayload_pruneFalsy (p : JObj)
    (hnodup : (p.map Prod.fst).Nodup)
    (hnonull : ∀ kv ∈ p, kv.2 ≠ JValue.null) :
    comparisonPayload (pruneFalsy p) p = pruneFalsy p := by
  rw [comparisonPayload]
  conv_rhs => rw [pruneFalsy]
  apply List.filter_congr
  intro kv hm
  cases ht : pyTruthy kv.2 with
  | true => simp [ht]
  | false =>
    have hmg : mget (pruneFalsy p) kv.1 = .null := by
      rw [mget, lookup_pruneFalsy p hnodup,
        lookup_of_mem_nodup p hnodup kv.1 kv.2 hm]
      simp [ht]
    have hne : pyEq JValue.null kv.2 = false := by
      cases hh : pyEq JValue.null kv.2 with
      | false => rfl
      | true => exact absurd ((pyEq_null_iff kv.2).mp hh) (hnonull kv hm)
    have hpn : pyTruthy JValue.null = false := rfl
    simp [hmg, ht, hne, hpn]

/-! ## Claims -/

/-- C1: on a 200 GET, the comparison payload keeps a key `k` of the local
payload exactly when the remote metadata is truthy at `k`, or the remote
value equals the local one, or the local value is truthy; a PATCH carrying
the comparison payload is issued exactly when the structural diff
(ignoring order in unordered structures) between the metadata and the
comparison payload is non-empty, and no write happens otherwise; and a key
with a truthy remote value is always retained in the comparison payload,
hence (the registry's PATCH being a partial update) never removed from the
registry. -/
theorem C1_reconcile_found (metadata payload : JObj) :
    (∀ k v, (k, v) ∈ comparisonPayload metadata payload ↔
      ((k, v) ∈ payload ∧
        (pyTruthy (mget metadata k) || pyEq (mget metadata k) v ||
          pyTruthy v) = true)) ∧
    (deepDiffNonempty (.obj metadata)
        (.obj (comparisonPayload metadata payload)) = true →
      register_or_update (.ok metadata) payload =
        .ok [.patch (comparisonPayload metadata payload)]) ∧
    (deepDiffNonempty (.obj metadata)
        (.obj (comparisonPayload metadata payload)) = false →
      register_or_update (.ok metadata) payload = .ok []) ∧
    (∀ k v, (k, v) ∈ payload → pyTruthy (mget metadata k) = true →
      (k, v) ∈ comparisonPayload metadata payload) ∧
    (∀ k ws, pyTruthy (mget metadata k) = true →
      register_or_update (.ok metadata) payload = .ok ws →
      ((applyWrites metadata ws).lookup k).isSome = true) := by
  refine ⟨?_, ?_, ?_, ?_, ?_⟩
  · intro k v
    simp [comparisonPayload, List.mem_filter]
  · intro h
    simp [register_or_update, h]
  · intro h
    simp [register_or_update, h]
  · intro k v hm ht
    simp [comparisonPayload, List.mem_filter, hm, ht]
  · intro k ws ht hw
    rw [register_or_update] at hw
    by_cases hd : deepDiffNonempty (.obj metadata)
        (.obj (comparisonPayload metadata payload)) = true
    · simp only [hd, if_true, Except.ok.injEq] at hw
      subst hw
      simp only [applyWrites, List.foldl, applyWrite]
      apply mergePatch_lookup_isSome
      exact pyTruthy_mget_isSome metadata k ht
    · simp only [Bool.not_eq_true] at hd
      simp only [hd, Bool.false_eq_true, if_false, Except.ok.injEq] at hw
      subst hw
      simp only [applyWrites, List.foldl]
      exact pyTruthy_mget_isSome metadata k ht

/-- C1 witness: at a concrete metadata/payload pair (remote has a truthy
`title`, local `title` is empty) the key is retained, the diff is
non-empty, the PATCH carries the comparison payload, and `title` survives
in the registry. -/
theorem C1_reconcile_found_witness :
    ("title", JValue.str "") ∈
      comparisonPayload [("title", JValue.str "remote")]
        [("title", JValue.str "")] ∧
    register_or_update (.ok [("title", JValue.str "remote")])
        [("title", JValue.str "")] =
      .ok [.patch (comparisonPayload [("title", JValue.str "remote")]
        [("title", JValue.str "")])] ∧
    ((applyWrites [("title", JValue.str "remote")]
        [.patch (comparisonPayload [("title", JValue.str "remote")]
          [("title", JValue.str "")])]).lookup "title").isSome = true := by
  have h := C1_reconcile_found [("title", JValue.str "remote")]
    [("title", JValue.str "")]
  refine ⟨?_, ?_, ?_⟩
  · exact h.2.2.2.1 "title" (JValue.str "") (by simp) (by decide)
  · exact h.2.1 (by decide)
  · exact h.2.2.2.2 "title"
      [.patch (comparisonPayload [("title", JValue.str "remote")]
        [("title", JValue.str "")])] (by decide) (h.2.1 (by decide))

/-- C2: on a 404 GET, exactly one PUT is issued, whose body is the payload
with every falsy-valued key removed; no PATCH is issued; a key survives
the pruning exactly when its value is truthy, and then with its value
unchanged. -/
theorem C2_reconcile_not_found (payload : JObj) :
    register_or_update .notFound payload = .ok [.put (pruneFalsy payload)] ∧
    (∀ k v, (k, v) ∈ pruneFalsy payload ↔
      ((k, v) ∈ payload ∧ pyTruthy v = true)) ∧
    (∀ ws body, register_or_update .notFound payload = .ok ws →
      .patch body ∈ ws → False) := by
  refine ⟨rfl, ?_, ?_⟩
  · intro k v
    simp [pruneFalsy, List.mem_filter]
  · intro ws body hw hmem
    rw [register_or_update] at hw
    cases hw
    simp at hmem

/-- C2 witness: a concrete payload with one truthy and two falsy keys is
pruned to the truthy key alone and PUT once. -/
theorem C2_reconcile_not_found_witness :
    register_or_update .notFound
        [("title", JValue.str "x"), ("mission", JValue.arr []),
         ("status", JValue.obj [])] =
      .ok [.put (pruneFalsy
        [("title", JValue.str "x"), ("mission", JValue.arr []),
         ("status", JValue.obj [])])] ∧
    ("title", JValue.str "x") ∈ pruneFalsy
        [("title", JValue.str "x"), ("mission", JValue.arr []),
         ("status", JValue.obj [])] := by
  have h := C2_reconcile_not_found
    [("title", JValue.str "x"), ("mission", JValue.arr []),
     ("status", JValue.obj [])]
  exact ⟨h.1, (h.2.1 "title" (JValue.str "x")).2 ⟨by simp, rfl⟩⟩

/-- C3 counterexample: for the payload `{"a": null}` against an initially
empty registry, the first call PUTs the pruned (empty) payload, but the
second call — whose GET returns that stored metadata — keeps `"a"` in the
comparison payload (`None == None`), finds a diff against the stored
metadata, and issues a PATCH, so the claimed zero-PATCH idempotence fails. -/
theorem C3_counterexample :
    register_or_update .notFound [("a", JValue.null)] =
      .ok [.put []] ∧
    register_or_update (.ok (pruneFalsy [("a", JValue.null)]))
        [("a", JValue.null)] =
      .ok [.patch [("a", JValue.null)]] :=
  ⟨rfl, rfl⟩

/-- C3 (amended): for every payload (a dict, hence distinct keys) none of
whose values is null, calling reconcile against an initially empty
registry and then again with the stored pruned payload as the 200
metadata results in exactly one PUT and zero PATCHes; with a null-valued
key the second call instead issues a PATCH (see the counterexample). -/
theorem C3_idempotent (payload : JObj)
    (hnodup : (payload.map Prod.fst).Nodup)
    (hnonull : ∀ kv ∈ payload, kv.2 ≠ JValue.null) :
    register_or_update .notFound payload = .ok [.put (pruneFalsy payload)] ∧
    register_or_update (.ok (pruneFalsy payload)) payload = .ok [] := by
  refine ⟨rfl, ?_⟩
  simp only [register_or_update,
    comparisonPayload_pruneFalsy payload hnodup hnonull,
    deepDiffNonempty_self, Bool.false_eq_true, if_false]

/-- C3 witness: the two-call scenario at a concrete null-free payload
yields the single PUT and no PATCH. -/
theorem C3_idempotent_witness :
    register_or_update .notFound
        [("title", JValue.str "x"), ("mission", JValue.arr [])] =
      .ok [.put (pruneFalsy
        [("title", JValue.str "x"), ("mission", JValue.arr [])])] ∧
    register_or_update
        (.ok (pruneFalsy [("title", JValue.str "x"), ("mission", JValue.arr [])]))
        [("title", JValue.str "x"), ("mission", JValue.arr [])] =
      .ok [] :=
  C3_idempotent [("title", JValue.str "x"), ("mission", JValue.arr [])]
    (by decide)
    (by intro kv h; rcases List.mem_cons.mp h with h1 | h1 <;> simp_all)

/-- C4: with truthy `issnId` and `year`, the issue id is the `-`-join of
`issnId`, `year` and the prefixed volume/number/supplement tokens in that
fixed order (each kept only when non-empty, purely numeric values
re-rendered as integers); concretely,
`issue_id("0001-3714", "1998", "10", "2", None) = "0001-3714-1998-v10-n2"`,
`issue_id("0001-3714", "1998", "010", None, None) = "0001-3714-1998-v10"`,
and `"007"` canonicalises to `"7"`. -/
theorem C4_issue_id (issn year : String)
    (volume number supplement : Option String)
    (hi : issn.isEmpty = false) (hy : year.isEmpty = false) :
    (issue_id (some issn) (some year) volume number supplement =
      String.intercalate "-"
        ([issn, year] ++ issue_id_tokens volume number supplement)) ∧
    issue_id (some "0001-3714") (some "1998") (some "10") (some "2") none =
      "0001-3714-1998-v10-n2" ∧
    issue_id (some "0001-3714") (some "1998") (some "010") none none =
      "0001-3714-1998-v10" ∧
    canonIfDigits "007" = "7" := by
  refine ⟨?_, by decide, by decide, by decide⟩
  rw [issue_id, issue_id_head]
  simp [hi, hy]

/-- C4 witness: the general join shape instantiated at the spec's first
concrete example. -/
theorem C4_issue_id_witness :
    issue_id (some "0001-3714") (some "1998") (some "10") (some "2") none =
      String.intercalate "-"
        (["0001-3714", "1998"] ++ issue_id_tokens (some "10") (some "2") none) :=
  (C4_issue_id "0001-3714" "1998" (some "10") (some "2") none rfl rfl).1

/-- C5 counterexample: with both `issnId` and `year` missing, the deriver
does not fail fast — it still returns an identifier, here `"v10"` built
from the volume alone. -/
theorem C5_counterexample :
    issue_id none none (some "10") none none = "v10" := by decide

/-- C5 (amended): a missing or empty `issnId` or `year` is not an error:
`issue_id` silently skips every falsy component and still returns an
identifier made of the remaining tokens, in each of the three missing
patterns — both missing, `issnId` present with `year` missing, and `year`
present with `issnId` missing. -/
theorem C5_no_fail_on_missing
    (issn year volume number supplement : Option String) :
    (optStrTruthy issn = false → optStrTruthy year = false →
      issue_id issn year volume number supplement =
        String.intercalate "-" (issue_id_tokens volume number supplement)) ∧
    (∀ i, issn = some i → i.isEmpty = false → optStrTruthy year = false →
      issue_id issn year volume number supplement =
        String.intercalate "-"
          (i :: issue_id_tokens volume number supplement)) ∧
    (∀ y, optStrTruthy issn = false → year = some y → y.isEmpty = false →
      issue_id issn year volume number supplement =
        String.intercalate "-"
          (y :: issue_id_tokens volume number supplement)) := by
  refine ⟨?_, ?_, ?_⟩
  · intro hi hy
    rw [issue_id, issue_id_head]
    cases issn with
    | none =>
      cases year with
      | none => rfl
      | some y =>
        simp only [optStrTruthy] at hy
        simp at hy
        simp [hy]
    | some s =>
      simp only [optStrTruthy] at hi
      simp at hi
      cases year with
      | none => simp [hi]
      | some y =>
        simp only [optStrTruthy] at hy
        simp at hy
        simp [hi, hy]
  · intro i hi hie hy
    subst hi
    rw [issue_id, issue_id_head]
    cases year with
    | none => simp [hie]
    | some y =>
      simp only [optStrTruthy] at hy
      simp at hy
      simp [hie, hy]
  · intro y hi hy hye
    subst hy
    rw [issue_id, issue_id_head]
    cases issn with
    | none => simp [hye]
    | some s =>
      simp only [optStrTruthy] at hi
      simp at hi
      simp [hi, hye]

/-- C5 witness: the amended behaviour at concrete inputs for the two
one-sided patterns — `issnId` present with `year` missing and `year`
present with `issnId` missing (the both-missing pattern is the
counterexample's input). -/
theorem C5_no_fail_on_missing_witness :
    issue_id (some "0001-3714") none (some "10") none none =
      String.intercalate "-"
        ("0001-3714" :: issue_id_tokens (some "10") none none) ∧
    issue_id none (some "1998") (some "10") none none =
      String.intercalate "-"
        ("1998" :: issue_id_tokens (some "10") none none) :=
  ⟨(C5_no_fail_on_missing (some "0001-3714") none (some "10") none none).2.1
      "0001-3714" rfl rfl rfl,
   (C5_no_fail_on_missing none (some "1998") (some "10") none none).2.2
      "1998" rfl rfl rfl⟩

/-- C6 counterexample: an initial GET with status 500 issues no write, and
the call returns normally (`.ok`) rather than propagating an error — the
GET is run with `check_response` disabled, so the status never raises. -/
theorem C6_counterexample :
    register_or_update (.other 500) [("title", JValue.str "x")] = .ok [] :=
  rfl

/-- C6 (amended): for any status other than 200 and 404 the reconciler
performs no PUT and no PATCH, and returns the GET response without
raising; the failure is silently ignored by callers that drop the return
value, not propagated as an error. -/
theorem C6_other_status_silent (code : Nat) (payload : JObj) :
    register_or_update (.other code) payload = .ok [] :=
  rfl

theorem issue_as_kernel_eq (issue : IssueRecord) (payload : JObj)
    (h : issue_as_kernel issue = some payload) :
    ∃ season _id, publication_season issue = some season ∧
      issue_kernel_id issue = some _id ∧
      payload = [("volume", .str (orEmpty issue.volume)),
                 ("number", .str (orEmpty issue.number))] ++
        supplement_entry issue ++
        [("titles", titles_value issue),
         ("publication_season", .arr (season.map .num)),
         ("_id", .str _id)] := by
  rw [issue_as_kernel] at h
  cases hs : publication_season issue with
  | none => rw [hs] at h; exact Option.noConfusion h
  | some season =>
    rw [hs] at h
    cases hid : issue_kernel_id issue with
    | none => rw [hid] at h; exact Option.noConfusion h
    | some _id =>
      rw [hid] at h
      exact ⟨season, _id, rfl, rfl, (Option.some.inj h).symm⟩

/-- C7: the mapped issue payload contains the key `supplement` exactly
when the record's type is `"supplement"`; in that case its value is the
supplement-volume label, falling back to the supplement-number label,
falling back to the literal `"0"`; a supplement record with both labels
falsy yields `"0"`. -/
theorem C7_supplement (issue : IssueRecord) (payload : JObj)
    (h : issue_as_kernel issue = some payload) :
    (((payload.lookup "supplement").isSome = true) ↔
      issue.type = "supplement") ∧
    (issue.type = "supplement" →
      payload.lookup "supplement" = some (.str (supplement_value issue))) ∧
    (optStrTruthy issue.supplement_volume = false →
      optStrTruthy issue.supplement_number = false →
      supplement_value issue = "0") := by
  obtain ⟨season, _id, _, _, hp⟩ := issue_as_kernel_eq issue payload h
  subst hp
  refine ⟨?_, ?_, ?_⟩
  · cases ht : (issue.type == "supplement") with
    | true =>
      have : issue.type = "supplement" := by simpa using ht
      simp [supplement_entry, ht, List.lookup, this]
    | false =>
      have : ¬(issue.type = "supplement") := by simpa using ht
      simp [supplement_entry, ht, List.lookup, this]
  · intro ht
    have hb : (issue.type == "supplement") = true := by simpa using ht
    simp [supplement_entry, hb, List.lookup]
  · intro h1 h2
    cases hv : issue.supplement_volume with
    | some s =>
      rw [hv] at h1
      simp only [optStrTruthy] at h1
      simp at h1
      cases hn : issue.supplement_number with
      | some t =>
        rw [hn] at h2
        simp only [optStrTruthy] at h2
        simp at h2
        simp [supplement_value, pyOrStr, hv, hn, h1, h2]
      | none => simp [supplement_value, pyOrStr, hv, hn, h1]
    | none =>
      cases hn : issue.supplement_number with
      | some t =>
        rw [hn] at h2
        simp only [optStrTruthy] at h2
        simp at h2
        simp [supplement_value, pyOrStr, hv, hn, h2]
      | none => simp [supplement_value, pyOrStr, hv, hn]

/-- C7 witness: the concrete supplement record with both labels absent
maps to a payload whose `supplement` value is `"0"`. -/
theorem C7_supplement_witness :
    ([("volume", JValue.str ""), ("number", JValue.str ""),
      ("supplement", JValue.str "0"), ("titles", JValue.arr []),
      ("publication_season", JValue.arr []),
      ("_id", JValue.str "0001-3714-1998-s0")] : JObj).lookup "supplement" =
      some (JValue.str (supplement_value suppIssue)) ∧
    supplement_value suppIssue = "0" := by
  have h := C7_supplement suppIssue
    [("volume", JValue.str ""), ("number", JValue.str ""),
     ("supplement", JValue.str "0"), ("titles", JValue.arr []),
     ("publication_season", JValue.arr []),
     ("_id", JValue.str "0001-3714-1998-s0")] rfl
  exact ⟨h.2.1 rfl, h.2.2 rfl rfl⟩

/-- C8: building the membership for journal `0001-3714` out of three
issues with declared positions 0, 1, 2 yields their derived ids in that
exact order; rebuilding after dropping any one of the three keeps the
remaining two ids in their original relative order; ids group under their
parent journal id (`v35`), and an id already present in the group is
skipped. -/
theorem C8_membership_build :
    mount_journals_issues_link
        [regularIssue "1996" "0", regularIssue "1997" "1",
         regularIssue "1998" "2"] =
      some [("0001-3714",
        ["0001-3714-1996", "0001-3714-1997", "0001-3714-1998"])] ∧
    mount_journals_issues_link
        [regularIssue "1997" "1", regularIssue "1998" "2"] =
      some [("0001-3714", ["0001-3714-1997", "0001-3714-1998"])] ∧
    mount_journals_issues_link
        [regularIssue "1996" "0", regularIssue "1998" "2"] =
      some [("0001-3714", ["0001-3714-1996", "0001-3714-1998"])] ∧
    mount_journals_issues_link
        [regularIssue "1996" "0", regularIssue "1997" "1"] =
      some [("0001-3714", ["0001-3714-1996", "0001-3714-1997"])] ∧
    mount_journals_issues_link
        [regularIssue "1996" "0", otherJournalIssue,
         regularIssue "1997" "1"] =
      some [("0001-3714", ["0001-3714-1996", "0001-3714-1997"]),
            ("9999-9999", ["9999-9999-1996"])] ∧
    mount_journals_issues_link
        [regularIssue "1996" "0", regularIssue "1996" "0"] =
      some [("0001-3714", ["0001-3714-1996"])] :=
  ⟨rfl, rfl, rfl, rfl, rfl, rfl⟩

theorem update_step_mem (get : String → Except Unit (List String))
    (l : List (String × List String)) (init : List (String × List String))
    (e : String × List String) (h : e ∈ l.foldl (update_step get) init) :
    e ∈ init ∨ ∃ items, get e.1 = .ok items := by
  induction l generalizing init with
  | nil => exact .inl h
  | cons ji rest ih =>
    rcases ih (update_step get init ji) h with h1 | h1
    · rw [update_step] at h1
      cases hg : get ji.1 with
      | error u => rw [hg] at h1; exact .inl h1
      | ok items =>
        rw [hg] at h1
        have h1 : e ∈ (if deepDiffOrderedNonempty (.arr (items.map .str))
            (.arr (ji.2.map .str)) = true then init ++ [ji] else init) := h1
        by_cases hd : deepDiffOrderedNonempty (.arr (items.map .str))
            (.arr (ji.2.map .str)) = true
        · rw [if_pos hd] at h1
          rcases List.mem_append.mp h1 with h2 | h2
          · exact .inl h2
          · have he : e = ji := by simpa using h2
            exact .inr ⟨items, he ▸ hg⟩
        · rw [if_neg hd] at h1
          exact .inl h1
    · exact .inr h1

/-- C9: when the GET of a journal raises (journal not found in the
registry), that journal is skipped without a PUT — the batch result is the
same as if the journal were absent from the input — and the remaining
journals are still processed; no PUT for the failing journal ever
appears. -/
theorem C9_journal_not_found_skipped
    (get : String → Except Unit (List String))
    (before after : List (String × List String)) (jid : String)
    (issues : List String) (h : get jid = .error ()) :
    update_journals_and_issues_link get (before ++ (jid, issues) :: after) =
      update_journals_and_issues_link get (before ++ after) ∧
    (∀ body, (jid, body) ∈
        update_journals_and_issues_link get (before ++ (jid, issues) :: after) →
      False) := by
  constructor
  · rw [update_journals_and_issues_link, update_journals_and_issues_link,
      List.foldl_append, List.foldl_append, List.foldl_cons]
    congr 1
    simp [update_step, h]
  · intro body hmem
    rcases update_step_mem get _ [] (jid, body) hmem with h1 | h1
    · simp at h1
    · rcases h1 with ⟨items, hi⟩
      rw [h] at hi
      cases hi

/-- C9 witness: with a concrete three-journal batch whose middle journal's
GET fails, the result equals the batch without it. -/
theorem C9_journal_not_found_skipped_witness :
    update_journals_and_issues_link
        (fun j => if j == "gone" then .error () else .ok [])
        ([("ok1", ["x"])] ++ ("gone", ["y"]) :: [("ok2", ["z"])]) =
      update_journals_and_issues_link
        (fun j => if j == "gone" then .error () else .ok [])
        ([("ok1", ["x"])] ++ [("ok2", ["z"])]) :=
  (C9_journal_not_found_skipped
    (fun j => if j == "gone" then .error () else .ok [])
    [("ok1", ["x"])] [("ok2", ["z"])] "gone" ["y"] rfl).1

/-- C10: the list insertion used by the membership builder
(`journal_issues[journal_id].insert(issue_position, issue_id)`, modelled
by `pyInsert`) is total, and a non-negative declared position at or beyond
the current length of the journal's list degrades to an append: the id is
placed at the end. -/
theorem C10_insert_clamps (l : List String) (pos : Int) (x : String)
    (h0 : 0 ≤ pos) (h : (l.length : Int) ≤ pos) :
    pyInsert l pos x = l ++ [x] ∧
    (pyInsert l pos x).length = l.length + 1 := by
  have hlen : l.length ≤ pos.toNat := by omega
  have heq : pyInsert l pos x = l ++ [x] := by
    rw [pyInsert]
    simp only [if_neg (by omega : ¬pos < 0)]
    rw [List.take_of_length_le hlen, List.drop_eq_nil_of_le hlen]
  exact ⟨heq, by rw [heq]; simp⟩

/-- C10 witness: inserting at position 5 into a two-element list appends. -/
theorem C10_insert_clamps_witness :
    pyInsert ["a", "b"] 5 "c" = ["a", "b"] ++ ["c"] ∧
    (pyInsert ["a", "b"] 5 "c").length = ["a", "b"].length + 1 :=
  C10_insert_clamps ["a", "b"] 5 "c" (by decide) (by decide)

end KernelGate
